import Mathlib

/-!
Verification of the thermal-printer abstraction layer: configuration
validation and the printer factory, the CBX POS 89E driver state machine
(connect / disconnect / print / selfTest), the printer registry
(registration, default-printer bookkeeping, discovery, validation), the
configuration manager (export / import), and the service facade.

The embedding is shallow: each TypeScript method becomes a Lean function
on an explicit state; asynchronous device I/O is represented by explicit
parameters giving the outcome of each external call (`Except String _`
for calls that may reject) and by an output list of device I/O actions;
thrown `PrinterError`s become `Except.error` values carrying the message
and taxonomy code.
-/

/-- Error taxonomy codes, from `PrinterErrorCode` in the type definitions
module. -/
inductive PrinterErrorCode where
  | CONNECTION_FAILED
  | PRINTER_OFFLINE
  | OUT_OF_PAPER
  | COVER_OPEN
  | PAPER_JAM
  | OVERHEAT
  | LOW_VOLTAGE
  | COMMAND_ERROR
  | TIMEOUT
  | INVALID_CONFIG
  | PRINTER_NOT_FOUND
  | UNSUPPORTED_OPERATION
deriving DecidableEq, Repr

/-- A thrown `PrinterError`: message plus taxonomy code (the optional
printer id and wrapped cause are dropped from the embedding). -/
structure PError where
  message : String
  code : PrinterErrorCode
deriving DecidableEq, Repr

/-- `PrinterStatus` enumeration. -/
inductive PrinterStatus where
  | idle
  | printing
  | error
  | offline
  | outOfPaper
  | coverOpen
deriving DecidableEq, Repr

/-- `PrinterConfig`.  Enum-valued fields are carried as their string
values (the TS enums are string enums and validation tests membership in
`Object.values(...)`); optional fields are `Option`, with `none` for an
absent (`undefined`) field.  An empty string models a falsy required
field. -/
structure PrinterConfig where
  id : String
  name : String
  ptype : String
  connectionType : String
  connectionString : String
  paperSize : String
  characterSet : Option String
  timeout : Option Int
  retryAttempts : Option Int
  isDefault : Option Bool
deriving DecidableEq, Repr

/-- `Object.values(PrinterType)`. -/
def printerTypeValues : List String :=
  ["cbx_pos_89e", "epson", "star", "generic_esc_pos"]

/-- `Object.values(PrinterConnectionType)`. -/
def connectionTypeValues : List String :=
  ["usb", "serial", "network", "bluetooth"]

/-- `Object.values(PaperSize)`. -/
def paperSizeValues : List String :=
  ["80mm", "78mm", "76mm", "58mm", "57mm", "44mm"]

/-- JavaScript `parseInt(s, 10)`: trim, optional sign, longest leading
digit run; `none` models `NaN`. -/
def parseIntJS (s : String) : Option Int :=
  let t := s.trim.toList
  let signDigits : Bool × List Char :=
    match t with
    | '-' :: r => (true, r)
    | '+' :: r => (false, r)
    | r => (false, r)
  let digits := signDigits.2.takeWhile Char.isDigit
  if digits.isEmpty then none
  else
    let n : Nat := digits.foldl (fun a c => a * 10 + (c.toNat - 48)) 0
    some (if signDigits.1 then -(n : Int) else (n : Int))

/-- `if (config.timeout && (config.timeout < 0 || config.timeout > 60000))
return false`: an absent or zero (falsy) timeout skips the range check. -/
def timeoutCheck (o : Option Int) : Bool :=
  match o with
  | some t => !(t != 0 && (t < 0 || t > 60000))
  | none => true

/-- `if (config.retryAttempts && (config.retryAttempts < 0 ||
config.retryAttempts > 10)) return false`, with the same falsy skip. -/
def retryCheck (o : Option Int) : Bool :=
  match o with
  | some r => !(r != 0 && (r < 0 || r > 10))
  | none => true

/-- `PrinterFactory.validateBasicConfig`: required fields present (JS
truthiness: an empty string is falsy), enum membership, `timeout` and
`retryAttempts` range checks. -/
def validateBasicConfig (c : PrinterConfig) : Bool :=
  !(c.id == "" || c.name == "" || c.ptype == "" || c.connectionString == "") &&
  printerTypeValues.contains c.ptype &&
  connectionTypeValues.contains c.connectionType &&
  paperSizeValues.contains c.paperSize &&
  timeoutCheck c.timeout &&
  retryCheck c.retryAttempts

/-- `PrinterFactory.validateUSBConnection`. -/
def validateUSBConnection (s : String) : Bool :=
  if s == "" then false
  else decide (0 < s.length) && decide (s.length < 256)

/-- `/^COM\d+$/i`. -/
def isComPort (s : String) : Bool :=
  match s.toList with
  | c :: o :: m :: rest =>
      c.toLower == 'c' && o.toLower == 'o' && m.toLower == 'm' &&
      !rest.isEmpty && rest.all Char.isDigit
  | _ => false

/-- Nonempty all-digit string. -/
def allDigits1 (s : String) : Bool :=
  !s.isEmpty && s.toList.all Char.isDigit

/-- `/^\/dev\/(tty(USB|ACM|S)\d+|cu\..+)$/`. -/
def isUnixSerialPath (s : String) : Bool :=
  (s.startsWith "/dev/ttyUSB" && allDigits1 (s.drop 11)) ||
  (s.startsWith "/dev/ttyACM" && allDigits1 (s.drop 11)) ||
  (s.startsWith "/dev/ttyS" && allDigits1 (s.drop 9)) ||
  (s.startsWith "/dev/cu." && decide (8 < s.length))

/-- `PrinterFactory.validateSerialConnection`. -/
def validateSerialConnection (s : String) : Bool :=
  if s == "" then false
  else isComPort s || isUnixSerialPath s

/-- `PrinterFactory.validateNetworkConnection`: `host:port`, host
nonempty, port parsed by `parseInt` and in `[1, 65535]`. -/
def validateNetworkConnection (s : String) : Bool :=
  if s == "" then false
  else
    match s.splitOn ":" with
    | [host, portStr] =>
        match parseIntJS portStr with
        | some port => !(host == "") && decide (1 ≤ port) && decide (port ≤ 65535)
        | none => false
    | _ => false

/-- `PrinterFactory.validateCbxPos89eConfig` (the type-specific
validator registered for `cbx_pos_89e`). -/
def validateCbxPos89eConfig (c : PrinterConfig) : Bool :=
  ["80mm", "58mm", "57mm"].contains c.paperSize &&
  (if c.connectionType == "usb" then validateUSBConnection c.connectionString
   else if c.connectionType == "serial" then validateSerialConnection c.connectionString
   else if c.connectionType == "network" then validateNetworkConnection c.connectionString
   else false)

/-- `PrinterFactory.validateGenericEscPosConfig`. -/
def validateGenericEscPosConfig (_c : PrinterConfig) : Bool := true

/-- The factory's `configValidators` map as built by
`registerDefaultPrinters`. -/
def configValidatorFor (t : String) : Option (PrinterConfig → Bool) :=
  if t == "cbx_pos_89e" then some validateCbxPos89eConfig
  else if t == "generic_esc_pos" then some validateGenericEscPosConfig
  else none

/-- The factory's `printerRegistry` map has a constructor exactly for
the two default-registered types. -/
def printerTypeRegistered (t : String) : Bool :=
  t == "cbx_pos_89e" || t == "generic_esc_pos"

/-- `PrinterFactory.validateConfig`: basic validation then the
type-specific validator when one is registered for the type. -/
def factoryValidateConfig (c : PrinterConfig) : Bool :=
  validateBasicConfig c &&
  (match configValidatorFor c.ptype with
   | some v => v c
   | none => true)

/-- Lifecycle events emitted through `BasePrinter.emitEvent` (the
`printerId`/timestamp envelope fields are dropped; the payload that the
claims speak about is kept). -/
inductive PrinterEvent where
  | statusChanged (oldStatus newStatus : PrinterStatus)
  | jobStarted (jobId : String)
  | jobCompleted (jobId : String)
  | jobFailed (jobId : String) (errMsg : String)
  | connectionLost
  | connectionRestored
  | errorEvent (msg : String)
deriving DecidableEq, Repr

/-- Device I/O actions issued by the driver against the wrapped native
transport libraries. -/
inductive DeviceIO where
  | probeConnection
  | clearBuffer
  | executeJob
deriving DecidableEq, Repr

/-- The mutable state a `CbxPos89ePrinter` instance carries:
`_isConnected`, `_status` (from `BasePrinter`) and `lastJobId`. -/
structure DriverState where
  isConnected : Bool
  status : PrinterStatus
  lastJobId : Nat
deriving DecidableEq, Repr

/-- `BasePrinter.setStatus`: update and emit `status_changed` only when
the status actually changes (self-transitions are suppressed). -/
def setStatus (st : DriverState) (s : PrinterStatus) :
    DriverState × List PrinterEvent :=
  if st.status ≠ s then
    ({ st with status := s }, [.statusChanged st.status s])
  else (st, [])

/-- The job id built at the top of `CbxPos89ePrinter.print`:
`cbx_${id}_${++lastJobId}_${Date.now()}`. -/
def mkJobId (printerId : String) (counter : Nat) (now : Nat) : String :=
  "cbx_" ++ printerId ++ "_" ++ toString counter ++ "_" ++ toString now

/-- `PrintJobConfig` (only the fields `print` consults). -/
structure PrintJobConfig where
  copies : Option Nat
  paperCut : Option Bool
  openCashDrawer : Option Bool
deriving DecidableEq, Repr

/-- Result of one driver operation: the resolved/rejected outcome, the
driver state afterwards, the device I/O issued, and the events emitted,
in emission order. -/
structure OpResult (α : Type) where
  outcome : Except PError α
  state : DriverState
  io : List DeviceIO
  events : List PrinterEvent
deriving Repr

/-- `CbxPos89ePrinter.print`.  The job id (and the `lastJobId`
increment) happens before the connectivity check, exactly as in the
source.  `execResult` abstracts the translation of the content items
plus their execution and the post-print cut/cash-drawer commands: `ok`
when that whole block resolves, `error msg` when any step inside the
`try` throws. -/
def printCbx (printerId : String) (st : DriverState) (_cfg : PrintJobConfig)
    (execResult : Except String Unit) (now : Nat) : OpResult String :=
  let counter := st.lastJobId + 1
  let jobId := mkJobId printerId counter now
  let st1 := { st with lastJobId := counter }
  if !st.isConnected then
    { outcome := .error ⟨"Printer not connected", .PRINTER_OFFLINE⟩,
      state := st1, io := [], events := [] }
  else
    let p1 := setStatus st1 .printing
    match execResult with
    | .ok _ =>
        let p2 := setStatus p1.1 .idle
        { outcome := .ok jobId, state := p2.1, io := [.executeJob],
          events := p1.2 ++ [.jobStarted jobId] ++ p2.2 ++ [.jobCompleted jobId] }
    | .error msg =>
        let p2 := setStatus p1.1 .error
        { outcome := .error ⟨"Print job failed: " ++ msg, .COMMAND_ERROR⟩,
          state := p2.1, io := [.executeJob],
          events := p1.2 ++ [.jobStarted jobId] ++ p2.2 ++ [.jobFailed jobId msg] }

/-- `CbxPos89ePrinter.connect`.  `probe` is the outcome of
`thermalPrinter.isPrinterConnected()`; the method always sets status to
`idle` first, always issues the probe, and on any failure (probe
rejected, or resolved `false`) runs the catch block: clear
`_isConnected`, set status `offline`, emit `error`, rethrow as
`CONNECTION_FAILED`. -/
def connectCbx (st : DriverState) (probe : Except String Bool) :
    OpResult Unit :=
  let p1 := setStatus st .idle
  match probe with
  | .ok true =>
      { outcome := .ok (), state := { p1.1 with isConnected := true },
        io := [.probeConnection], events := p1.2 ++ [.connectionRestored] }
  | .ok false =>
      let msg := "Failed to connect to CBX POS 89E printer: Printer not responding"
      let st2 := { p1.1 with isConnected := false }
      let p2 := setStatus st2 .offline
      { outcome := .error ⟨msg, .CONNECTION_FAILED⟩, state := p2.1,
        io := [.probeConnection], events := p1.2 ++ p2.2 ++ [.errorEvent msg] }
  | .error m =>
      let msg := "Failed to connect to CBX POS 89E printer: " ++ m
      let st2 := { p1.1 with isConnected := false }
      let p2 := setStatus st2 .offline
      { outcome := .error ⟨msg, .CONNECTION_FAILED⟩, state := p2.1,
        io := [.probeConnection], events := p1.2 ++ p2.2 ++ [.errorEvent msg] }

/-- `CbxPos89ePrinter.disconnect`: always clears the thermal-printer
buffer, drops the connection flag, sets status `offline` and emits
`connection_lost` — there is no already-offline guard. -/
def disconnectCbx (st : DriverState) : OpResult Unit :=
  let st1 := { st with isConnected := false }
  let p1 := setStatus st1 .offline
  { outcome := .ok (), state := p1.1, io := [.clearBuffer],
    events := p1.2 ++ [.connectionLost] }

/-- `CbxPos89ePrinter.selfTest`: `false` when disconnected, otherwise
the probe's value, with a thrown probe absorbed to `false` by the
surrounding catch. -/
def selfTestCbx (st : DriverState) (probe : Except String Bool) : Bool :=
  if !st.isConnected then false
  else
    match probe with
    | .ok b => b
    | .error _ => false

/-- A live driver instance as held by the registry (its id plus its
state-machine state; all freshly constructed drivers start disconnected
and offline with job counter 0). -/
structure Driver where
  id : String
  state : DriverState
deriving DecidableEq, Repr

/-- The state a `new CbxPos89ePrinter(...)` starts in. -/
def initialDriverState : DriverState :=
  { isConnected := false, status := .offline, lastJobId := 0 }

/-- `PrinterFactory.createPrinter`: validate first (fail fast with
`INVALID_CONFIG`), then look the constructor up in `printerRegistry`
(`UNSUPPORTED_OPERATION` when absent), then construct.  The wrapped
native-library constructors are modelled as non-throwing, so the final
catch that re-wraps construction failures as `INVALID_CONFIG` never
fires in the embedding. -/
def createPrinter (c : PrinterConfig) : Except PError Driver :=
  if !factoryValidateConfig c then
    .error ⟨"Invalid configuration for printer type: " ++ c.ptype, .INVALID_CONFIG⟩
  else if printerTypeRegistered c.ptype then
    .ok { id := c.id, state := initialDriverState }
  else
    .error ⟨"Unsupported printer type: " ++ c.ptype, .UNSUPPORTED_OPERATION⟩

/-- The `PrinterRegistry` state: the `printers` and `configs` maps (JS
`Map`s iterate in insertion order, so both are association lists kept in
insertion order) and `defaultPrinterId`. -/
structure Registry where
  printers : List (String × Driver)
  configs : List (String × PrinterConfig)
  defaultPrinterId : Option String
deriving DecidableEq, Repr

/-- A fresh `new PrinterRegistry()`. -/
def emptyRegistry : Registry :=
  { printers := [], configs := [], defaultPrinterId := none }

/-- `Map.get`: first (and only) binding for a key. -/
def assocGet (l : List (String × α)) (k : String) : Option α :=
  match l.find? (fun p => p.1 == k) with
  | some p => some p.2
  | none => none

/-- `PrinterRegistry.registerPrinter`: validate via the factory, reject
duplicate ids, create the driver, store it, and make it the default when
its config says so or when it is the only printer after insertion.  Any
failure is wrapped as `INVALID_CONFIG` by the surrounding catch. -/
def registerPrinter (reg : Registry) (c : PrinterConfig) :
    Except PError (Registry × String) :=
  if !factoryValidateConfig c then
    .error ⟨"Failed to register printer: Invalid printer configuration", .INVALID_CONFIG⟩
  else if (assocGet reg.printers c.id).isSome then
    .error ⟨"Failed to register printer: Printer with ID already exists", .INVALID_CONFIG⟩
  else
    match createPrinter c with
    | .error e => .error ⟨"Failed to register printer: " ++ e.message, .INVALID_CONFIG⟩
    | .ok drv =>
        let printers := reg.printers ++ [(c.id, drv)]
        let newDefault :=
          if c.isDefault == some true || printers.length == 1 then some c.id
          else reg.defaultPrinterId
        .ok ({ printers := printers,
               configs := reg.configs ++ [(c.id, c)],
               defaultPrinterId := newDefault }, c.id)

/-- `PrinterRegistry.unregisterPrinter`: `PRINTER_NOT_FOUND` for an
unknown id; otherwise dispose the driver, delete it from both maps, and
when it was the default promote `printers.keys().next().value` (the
first remaining insertion, or `null` when empty). -/
def unregisterPrinter (reg : Registry) (id : String) :
    Except PError Registry :=
  match assocGet reg.printers id with
  | none => .error ⟨"Printer not found", .PRINTER_NOT_FOUND⟩
  | some _ =>
      let printers := reg.printers.filter (fun p => p.1 ≠ id)
      let configs := reg.configs.filter (fun p => p.1 ≠ id)
      let dflt :=
        if reg.defaultPrinterId == some id then
          (printers.head?).map (fun p => p.1)
        else reg.defaultPrinterId
      .ok { printers := printers, configs := configs, defaultPrinterId := dflt }

/-- `PrinterRegistry.getPrinter`. -/
def getPrinter (reg : Registry) (id : String) : Option Driver :=
  assocGet reg.printers id

/-- `PrinterRegistry.getDefaultPrinter`. -/
def getDefaultPrinter (reg : Registry) : Option Driver :=
  match reg.defaultPrinterId with
  | some i => getPrinter reg i
  | none => none

/-- `PrinterRegistry.validatePrinter`: `false` for an unknown id (no
throw), otherwise the driver's `selfTest()` outcome with any thrown
exception absorbed to `false` by the catch.  `selfTestOutcome` is the
resolution/rejection of the `printer.selfTest()` call. -/
def validatePrinterReg (reg : Registry) (id : String)
    (selfTestOutcome : Except String Bool) : Bool :=
  match getPrinter reg id with
  | none => false
  | some _ =>
      match selfTestOutcome with
      | .ok b => b
      | .error _ => false

/-- `PrinterDiscoveryResult`. -/
structure DiscoveryResult where
  id : String
  name : String
  ptype : String
  connectionType : String
  connectionString : String
  isAvailable : Bool
deriving DecidableEq, Repr

/-- Raw outcomes of the platform probing paths: the USB enumeration, the
OS installed-printer listing for the current platform, and the per-IP
network port probe (`checkNetworkPrinter` resolves `false` on error or
timeout and never rejects). -/
structure DiscoveryEnv where
  usbRaw : Except String (List DiscoveryResult)
  osRaw : Except String (List DiscoveryResult)
  netProbe : String → Bool

/-- Each sub-probe body sits inside its own try/catch that absorbs the
failure and yields the results gathered so far (the embedding returns
none for a failed path, matching a probe whose tool is unavailable). -/
def catchProbe (raw : Except String (List DiscoveryResult)) :
    List DiscoveryResult :=
  match raw with
  | .ok l => l
  | .error _ => []

/-- `commonIPs` in `discoverNetworkPrinters`. -/
def commonIPs : List String :=
  ["192.168.1.100", "192.168.1.101", "192.168.0.100", "192.168.0.101"]

/-- The discovery record `discoverNetworkPrinters` pushes for a
responding address. -/
def mkNetworkResult (ip : String) : DiscoveryResult :=
  { id := "network_" ++ ip.replace "." "_",
    name := "Network Printer (" ++ ip ++ ")",
    ptype := "generic_esc_pos",
    connectionType := "network",
    connectionString := ip ++ ":9100",
    isAvailable := true }

/-- `PrinterRegistry.discoverNetworkPrinters`: probe each candidate IP
on port 9100, keep the responders, ignore individual failures. -/
def discoverNetworkPrinters (probe : String → Bool) : List DiscoveryResult :=
  (commonIPs.filter probe).map mkNetworkResult

/-- `PrinterRegistry.discoverPrinters`: concatenate the USB path, the
platform path and the network path.  Every sub-probe absorbs its own
failure, so the body of the outer try/catch cannot throw and the method
always resolves with the concatenation. -/
def discoverPrinters (env : DiscoveryEnv) :
    Except String (List DiscoveryResult) :=
  .ok (catchProbe env.usbRaw ++ catchProbe env.osRaw ++
       discoverNetworkPrinters env.netProbe)

/-- The `ConfigManager` state: the `configCache` values in insertion
order (each entry is keyed by its own `id`) and `defaultConfigId`. -/
structure ConfigStore where
  configs : List PrinterConfig
  defaultConfigId : Option String
deriving DecidableEq, Repr

/-- `ConfigManager.validateConfig`: its body performs exactly the checks
of the factory's basic validation (required fields, enum membership,
timeout/retry ranges) and no type-specific phase. -/
def cmValidateConfig (c : PrinterConfig) : Bool :=
  validateBasicConfig c

/-- The interchange document produced by `exportConfigs` and consumed by
`importConfigs` (the `version` and `exportDate` fields play no role in
the round trip and are omitted; `JSON.parse ∘ JSON.stringify` on these
plain records is the identity in the model). -/
structure ExportData where
  defaultConfigId : Option String
  configurations : List PrinterConfig
deriving DecidableEq, Repr

/-- `ConfigManager.exportConfigs`. -/
def exportConfigs (s : ConfigStore) : ExportData :=
  { defaultConfigId := s.defaultConfigId, configurations := s.configs }

/-- `configCache.set(config.id, config)`: a JS `Map.set` keeps the
original position of an existing key and appends a new one. -/
def cacheInsert (cache : List PrinterConfig) (c : PrinterConfig) :
    List PrinterConfig :=
  if cache.any (fun x => x.id == c.id) then
    cache.map (fun x => if x.id == c.id then c else x)
  else cache ++ [c]

/-- `ConfigManager.importConfigs`: validate every record before
committing any (all-or-nothing), clear the cache, re-insert each record,
then keep the stated `defaultConfigId` when it is truthy and present,
otherwise fall back to the first imported config and flip its
`isDefault` to `true`; with an empty import the field is left at its
previous value (the method never resets it to `null`). -/
def importConfigs (s : ConfigStore) (data : ExportData) :
    Except PError ConfigStore :=
  if !data.configurations.all cmValidateConfig then
    .error ⟨"Failed to import configurations: Invalid configuration", .INVALID_CONFIG⟩
  else
    let cache := data.configurations.foldl cacheInsert []
    let keepStated : Bool :=
      match data.defaultConfigId with
      | some d => d != "" && cache.any (fun c => c.id == d)
      | none => false
    if keepStated then
      .ok { configs := cache, defaultConfigId := data.defaultConfigId }
    else
      match cache with
      | [] => .ok { configs := [], defaultConfigId := s.defaultConfigId }
      | first :: rest =>
          .ok { configs := { first with isDefault := some true } :: rest,
                defaultConfigId := some first.id }

/-- `Partial<PrinterConfig>` as passed to `createCbxPos89eConfig`. -/
structure CbxConfigOptions where
  id : Option String
  name : Option String
  ptype : Option String
  connectionType : Option String
  connectionString : Option String
  paperSize : Option String
  characterSet : Option String
  timeout : Option Int
  retryAttempts : Option Int
  isDefault : Option Bool
deriving DecidableEq, Repr

/-- The `{}` default for the `options` argument. -/
def emptyCbxOptions : CbxConfigOptions :=
  { id := none, name := none, ptype := none, connectionType := none,
    connectionString := none, paperSize := none, characterSet := none,
    timeout := none, retryAttempts := none, isDefault := none }

/-- `createCbxPos89eConfig` from the utility module.  The literal first
fills every field with `options.f || default`, then re-applies
`...options`; the spread overwrites any field the caller supplied (even
a falsy one), so each field nets out to the caller's value when present
and the template default otherwise.  `now` stands for `Date.now()`. -/
def createCbxPos89eConfig (name connStr : String) (options : CbxConfigOptions)
    (now : Nat) : PrinterConfig :=
  { id := options.id.getD ("cbx_" ++ toString now),
    name := options.name.getD name,
    ptype := options.ptype.getD "cbx_pos_89e",
    connectionType := options.connectionType.getD "usb",
    connectionString := options.connectionString.getD connStr,
    paperSize := options.paperSize.getD "80mm",
    characterSet := some (options.characterSet.getD "UTF-8"),
    timeout := some (options.timeout.getD 3000),
    retryAttempts := some (options.retryAttempts.getD 3),
    isDefault := some (options.isDefault.getD false) }

/-- The `PrinterService` state relevant to `testPrinter`: the
`initialized` flag and the owned registry. -/
structure ServiceState where
  initialized : Bool
  registry : Registry
deriving DecidableEq, Repr

/-- `PrinterService.testPrinter`: `ensureInitialized()` (which throws
`INVALID_CONFIG` when the service was never initialized) and then the
registry's `validatePrinter`. -/
def testPrinter (s : ServiceState) (id : String)
    (selfTestOutcome : Except String Bool) : Except PError Bool :=
  if !s.initialized then
    .error ⟨"Printer service not initialized", .INVALID_CONFIG⟩
  else
    .ok (validatePrinterReg s.registry id selfTestOutcome)

/-- Projection of the event stream onto the job lifecycle events. -/
def isJobEvent : PrinterEvent → Bool
  | .jobStarted _ => true
  | .jobCompleted _ => true
  | .jobFailed _ _ => true
  | _ => false

/-- A job configuration with no options set (`print(content)`). -/
def jobCfgEmpty : PrintJobConfig :=
  { copies := none, paperCut := none, openCashDrawer := none }

/-- Fixture: a valid CBX POS 89E config registered as the default. -/
def cfgP1 : PrinterConfig :=
  { id := "p1", name := "Printer One", ptype := "cbx_pos_89e",
    connectionType := "usb", connectionString := "USB Printer 1",
    paperSize := "80mm", characterSet := some "UTF-8",
    timeout := some 3000, retryAttempts := some 3, isDefault := some true }

/-- Fixture: a second valid CBX POS 89E config, not default. -/
def cfgP2 : PrinterConfig :=
  { id := "p2", name := "Printer Two", ptype := "cbx_pos_89e",
    connectionType := "usb", connectionString := "USB Printer 2",
    paperSize := "80mm", characterSet := some "UTF-8",
    timeout := some 3000, retryAttempts := some 3, isDefault := some false }

/-- Fixture: a config of type `epson` that passes both validation phases
(there is no type-specific validator for `epson`) but whose type has no
constructor registered with the factory. -/
def cfgEpson : PrinterConfig :=
  { id := "e1", name := "Epson Printer", ptype := "epson",
    connectionType := "usb", connectionString := "Epson TM-T20",
    paperSize := "80mm", characterSet := some "UTF-8",
    timeout := some 3000, retryAttempts := some 3, isDefault := none }

/-- Fixture: a store holding one valid config that is not marked default
and whose `defaultConfigId` is `null` (the state `saveConfig` leaves
behind for a non-default config in a fresh manager). -/
def storeNoDefault : ConfigStore :=
  { configs := [cfgP2], defaultConfigId := none }

/-- Fixture: a store whose `defaultConfigId` names its stored config. -/
def storeWithDefault : ConfigStore :=
  { configs := [cfgP1], defaultConfigId := some "p1" }

/-- C1: on a connected driver whose status is Idle, a `print` call whose
translation and execution succeed returns `ok jobId`, takes the status
Idle→Printing→Idle (ending in the starting state except for the job
counter), and emits exactly one `job_started` followed by exactly one
`job_completed`, both carrying the returned job id, in that order with
no duplicates. -/
theorem print_success_lifecycle (printerId : String) (st : DriverState)
    (cfg : PrintJobConfig) (now : Nat)
    (hconn : st.isConnected = true) (hidle : st.status = .idle) :
    (printCbx printerId st cfg (.ok ()) now).outcome
        = .ok (mkJobId printerId (st.lastJobId + 1) now) ∧
    (printCbx printerId st cfg (.ok ()) now).state
        = { st with lastJobId := st.lastJobId + 1 } ∧
    (printCbx printerId st cfg (.ok ()) now).events
        = [.statusChanged .idle .printing,
           .jobStarted (mkJobId printerId (st.lastJobId + 1) now),
           .statusChanged .printing .idle,
           .jobCompleted (mkJobId printerId (st.lastJobId + 1) now)] := by
  obtain ⟨conn, stat, n⟩ := st
  simp only [DriverState.isConnected] at hconn
  simp only [DriverState.status] at hidle
  subst hconn
  subst hidle
  refine ⟨rfl, rfl, rfl⟩

/-- Witness for `print_success_lifecycle` at a concrete connected idle
driver. -/
theorem print_success_lifecycle_witness :
    ((⟨true, .idle, 0⟩ : DriverState).isConnected = true ∧
     (⟨true, .idle, 0⟩ : DriverState).status = .idle) ∧
    ((printCbx "p" ⟨true, .idle, 0⟩ jobCfgEmpty (.ok ()) 7).outcome
        = .ok (mkJobId "p" (0 + 1) 7) ∧
     (printCbx "p" ⟨true, .idle, 0⟩ jobCfgEmpty (.ok ()) 7).state
        = { (⟨true, .idle, 0⟩ : DriverState) with lastJobId := 0 + 1 } ∧
     (printCbx "p" ⟨true, .idle, 0⟩ jobCfgEmpty (.ok ()) 7).events
        = [.statusChanged .idle .printing,
           .jobStarted (mkJobId "p" (0 + 1) 7),
           .statusChanged .printing .idle,
           .jobCompleted (mkJobId "p" (0 + 1) 7)]) :=
  ⟨⟨rfl, rfl⟩,
   print_success_lifecycle "p" ⟨true, .idle, 0⟩ jobCfgEmpty 7 rfl rfl⟩

/-- C2 (amended): `print` on a disconnected driver rejects with
`PRINTER_OFFLINE` before any translation or device I/O (the result does
not depend on `execResult`), emits no events, and leaves connection and
status untouched — but the internal job-id counter `lastJobId` has
already been incremented by the time of the check. -/
theorem print_offline_rejects (printerId : String) (st : DriverState)
    (cfg : PrintJobConfig) (execResult : Except String Unit) (now : Nat)
    (hoff : st.isConnected = false) :
    printCbx printerId st cfg execResult now =
      { outcome := .error ⟨"Printer not connected", .PRINTER_OFFLINE⟩,
        state := { st with lastJobId := st.lastJobId + 1 },
        io := [], events := [] } := by
  obtain ⟨conn, stat, n⟩ := st
  simp only [DriverState.isConnected] at hoff
  subst hoff
  rfl

/-- Witness for `print_offline_rejects` at a concrete offline driver. -/
theorem print_offline_rejects_witness :
    ((⟨false, .offline, 0⟩ : DriverState).isConnected = false) ∧
    printCbx "p" ⟨false, .offline, 0⟩ jobCfgEmpty (.ok ()) 7 =
      { outcome := .error ⟨"Printer not connected", .PRINTER_OFFLINE⟩,
        state := { (⟨false, .offline, 0⟩ : DriverState) with lastJobId := 0 + 1 },
        io := [], events := [] } :=
  ⟨rfl, print_offline_rejects "p" ⟨false, .offline, 0⟩ jobCfgEmpty (.ok ()) 7 rfl⟩

/-- C2 counterexample: the early Printer-Offline rejection does mutate
driver-held job state — the job-id counter advances — so the rejected
call does not leave the driver state unchanged. -/
theorem print_offline_mutates_counter :
    (printCbx "p" ⟨false, .offline, 0⟩ jobCfgEmpty (.ok ()) 7).state ≠
      (⟨false, .offline, 0⟩ : DriverState) := by
  decide

/-- C3: on a connected driver, a `print` whose translation/execution
throws rejects with a wrapped `COMMAND_ERROR`, leaves the driver
connected with status Error (not reset to Idle), and its job events are
exactly `job_started` then `job_failed`, the latter carrying the job id
and the error text. -/
theorem print_failure_behavior (printerId : String) (st : DriverState)
    (cfg : PrintJobConfig) (msg : String) (now : Nat)
    (hconn : st.isConnected = true) :
    (printCbx printerId st cfg (.error msg) now).outcome
        = .error ⟨"Print job failed: " ++ msg, .COMMAND_ERROR⟩ ∧
    (printCbx printerId st cfg (.error msg) now).state.isConnected = true ∧
    (printCbx printerId st cfg (.error msg) now).state.status = .error ∧
    (printCbx printerId st cfg (.error msg) now).state.status ≠ .idle ∧
    (printCbx printerId st cfg (.error msg) now).events.filter isJobEvent
        = [.jobStarted (mkJobId printerId (st.lastJobId + 1) now),
           .jobFailed (mkJobId printerId (st.lastJobId + 1) now) msg] := by
  obtain ⟨conn, stat, n⟩ := st
  simp only [DriverState.isConnected] at hconn
  subst hconn
  cases stat <;>
    exact ⟨rfl, rfl, rfl, fun h => PrinterStatus.noConfusion h, rfl⟩

/-- Witness for `print_failure_behavior` at a concrete connected idle
driver and a concrete error message. -/
theorem print_failure_behavior_witness :
    ((⟨true, .idle, 0⟩ : DriverState).isConnected = true) ∧
    ((printCbx "p" ⟨true, .idle, 0⟩ jobCfgEmpty (.error "boom") 7).outcome
        = .error ⟨"Print job failed: " ++ "boom", .COMMAND_ERROR⟩ ∧
     (printCbx "p" ⟨true, .idle, 0⟩ jobCfgEmpty (.error "boom") 7).state.isConnected = true ∧
     (printCbx "p" ⟨true, .idle, 0⟩ jobCfgEmpty (.error "boom") 7).state.status = .error ∧
     (printCbx "p" ⟨true, .idle, 0⟩ jobCfgEmpty (.error "boom") 7).state.status ≠ .idle ∧
     (printCbx "p" ⟨true, .idle, 0⟩ jobCfgEmpty (.error "boom") 7).events.filter isJobEvent
        = [.jobStarted (mkJobId "p" (0 + 1) 7),
           .jobFailed (mkJobId "p" (0 + 1) 7) "boom"]) :=
  ⟨rfl, print_failure_behavior "p" ⟨true, .idle, 0⟩ jobCfgEmpty "boom" 7 rfl⟩

/-- C4 counterexample: a fully-populated config of type `epson` passes
`validateConfig` (there is no type-specific validator for `epson`), yet
`createPrinter` raises — with code Unsupported-Operation, not
Invalid-Config — because no constructor is registered for that type.
This refutes "every configuration that passes generic and type-specific
validation ... createPrinter does not raise". -/
theorem factory_epson_validates_but_create_raises :
    factoryValidateConfig cfgEpson = true ∧
    createPrinter cfgEpson =
      .error ⟨"Unsupported printer type: epson", .UNSUPPORTED_OPERATION⟩ := by
  constructor <;> rfl

/-- C4 (amended): (1) every configuration that passes the factory's
validation *and whose type has a registered constructor* is created
without error; (2) every configuration missing a required field (id,
name, type, connection string) or carrying a timeout outside [0, 60000]
or a retry count outside [0, 10] fails `validateConfig` and makes
`createPrinter` raise Invalid-Config before any driver is constructed. -/
theorem factory_validation_spec :
    (∀ c : PrinterConfig, factoryValidateConfig c = true →
        printerTypeRegistered c.ptype = true →
        createPrinter c = .ok { id := c.id, state := initialDriverState }) ∧
    (∀ c : PrinterConfig,
        (c.id = "" ∨ c.name = "" ∨ c.ptype = "" ∨ c.connectionString = "" ∨
         (∃ t, c.timeout = some t ∧ (t < 0 ∨ t > 60000)) ∨
         (∃ r, c.retryAttempts = some r ∧ (r < 0 ∨ r > 10))) →
        factoryValidateConfig c = false ∧
        createPrinter c =
          .error ⟨"Invalid configuration for printer type: " ++ c.ptype,
                  .INVALID_CONFIG⟩) := by
  constructor
  · intro c hv hr
    simp [createPrinter, hv, hr]
  · intro c h
    have hb : validateBasicConfig c = false := by
      rcases h with h | h | h | h | ⟨t, ht, hrange⟩ | ⟨r, hr, hrange⟩
      · simp [validateBasicConfig, h]
      · simp [validateBasicConfig, h]
      · simp [validateBasicConfig, h]
      · simp [validateBasicConfig, h]
      · have hc : timeoutCheck c.timeout = false := by
          rw [ht]
          simp only [timeoutCheck, Bool.not_eq_false']
          rcases hrange with hlt | hgt
          · simp [hlt]
            omega
          · simp [hgt]
            omega
        simp [validateBasicConfig, hc]
      · have hc : retryCheck c.retryAttempts = false := by
          rw [hr]
          simp only [retryCheck, Bool.not_eq_false']
          rcases hrange with hlt | hgt
          · simp [hlt]
            omega
          · simp [hgt]
            omega
        simp [validateBasicConfig, hc]
    have hv : factoryValidateConfig c = false := by
      simp [factoryValidateConfig, hb]
    exact ⟨hv, by simp [createPrinter, hv]⟩

/-- Witness for `factory_validation_spec`: the valid `cfgP1` is created
without error, and a config with an empty id fails both validation and
creation. -/
theorem factory_validation_spec_witness :
    (factoryValidateConfig cfgP1 = true ∧
     printerTypeRegistered cfgP1.ptype = true ∧
     createPrinter cfgP1 = .ok { id := cfgP1.id, state := initialDriverState }) ∧
    (({ cfgP1 with id := "" } : PrinterConfig).id = "" ∧
     factoryValidateConfig { cfgP1 with id := "" } = false ∧
     createPrinter { cfgP1 with id := "" } =
       .error ⟨"Invalid configuration for printer type: "
                 ++ ({ cfgP1 with id := "" } : PrinterConfig).ptype,
               .INVALID_CONFIG⟩) :=
  ⟨⟨rfl, rfl, factory_validation_spec.1 cfgP1 rfl rfl⟩,
   ⟨rfl,
    (factory_validation_spec.2 { cfgP1 with id := "" } (Or.inl rfl)).1,
    (factory_validation_spec.2 { cfgP1 with id := "" } (Or.inl rfl)).2⟩⟩

/-- Registry contents after registering `cfgP1` into an empty registry:
p1 is stored and, being both the first printer and explicitly marked
default, becomes the default. -/
def regAfterP1 : Registry :=
  { printers := [("p1", { id := "p1", state := initialDriverState })],
    configs := [("p1", cfgP1)],
    defaultPrinterId := some "p1" }

/-- Registry contents after additionally registering `cfgP2`: the
default is unchanged. -/
def regAfterP2 : Registry :=
  { printers := [("p1", { id := "p1", state := initialDriverState }),
                 ("p2", { id := "p2", state := initialDriverState })],
    configs := [("p1", cfgP1), ("p2", cfgP2)],
    defaultPrinterId := some "p1" }

/-- Registry contents after unregistering p1: the first remaining
printer, p2, is promoted to default. -/
def regAfterUnregP1 : Registry :=
  { printers := [("p2", { id := "p2", state := initialDriverState })],
    configs := [("p2", cfgP2)],
    defaultPrinterId := some "p2" }

/-- C5: registering P1 (marked default) then P2 leaves P1 the default;
unregistering P1 promotes P2; unregistering P2 as well clears the
default, so `getDefaultPrinter()` returns null. -/
theorem registry_default_promotion :
    registerPrinter emptyRegistry cfgP1 = .ok (regAfterP1, "p1") ∧
    registerPrinter regAfterP1 cfgP2 = .ok (regAfterP2, "p2") ∧
    (getDefaultPrinter regAfterP2).map Driver.id = some "p1" ∧
    unregisterPrinter regAfterP2 "p1" = .ok regAfterUnregP1 ∧
    (getDefaultPrinter regAfterUnregP1).map Driver.id = some "p2" ∧
    unregisterPrinter regAfterUnregP1 "p2" = .ok emptyRegistry ∧
    getDefaultPrinter emptyRegistry = none := by
  refine ⟨?_, ?_, rfl, ?_, rfl, ?_, rfl⟩ <;> rfl

/-- C6 counterexample: `connect()` on an already-connected idle driver
still issues device I/O (the connection probe) and re-emits
`connection_restored`, and `disconnect()` on an already-offline driver
still clears the device buffer and emits `connection_lost` — neither is
the event-free, I/O-free no-op the claim states. -/
theorem connect_disconnect_not_io_free :
    (connectCbx ⟨true, .idle, 0⟩ (.ok true)).io ≠ [] ∧
    (connectCbx ⟨true, .idle, 0⟩ (.ok true)).events ≠ [] ∧
    (disconnectCbx ⟨false, .offline, 0⟩).io ≠ [] ∧
    (disconnectCbx ⟨false, .offline, 0⟩).events ≠ [] := by
  refine ⟨?_, ?_, ?_, ?_⟩ <;> decide

/-- C6 (amended): `connect()` and `disconnect()` are idempotent on the
driver *state* — a second `connect` on a connected idle driver resolves
and leaves the state exactly as it was, and a second `disconnect` on an
offline driver resolves and leaves the state unchanged — but each call
re-runs its device I/O (the connection probe, the buffer clear) and
re-emits its connection event rather than returning immediately. -/
theorem connect_disconnect_state_idempotent :
    (∀ st : DriverState, st.isConnected = true → st.status = .idle →
        connectCbx st (.ok true) =
          { outcome := .ok (), state := st,
            io := [.probeConnection], events := [.connectionRestored] }) ∧
    (∀ st : DriverState, st.isConnected = false → st.status = .offline →
        disconnectCbx st =
          { outcome := .ok (), state := st,
            io := [.clearBuffer], events := [.connectionLost] }) := by
  constructor
  · intro st h1 h2
    obtain ⟨conn, stat, n⟩ := st
    simp only [DriverState.isConnected] at h1
    simp only [DriverState.status] at h2
    subst h1; subst h2
    rfl
  · intro st h1 h2
    obtain ⟨conn, stat, n⟩ := st
    simp only [DriverState.isConnected] at h1
    simp only [DriverState.status] at h2
    subst h1; subst h2
    rfl

/-- Witness for `connect_disconnect_state_idempotent` at concrete
connected-idle and offline drivers. -/
theorem connect_disconnect_state_idempotent_witness :
    ((⟨true, .idle, 3⟩ : DriverState).isConnected = true ∧
     (⟨true, .idle, 3⟩ : DriverState).status = .idle ∧
     connectCbx ⟨true, .idle, 3⟩ (.ok true) =
       { outcome := .ok (), state := ⟨true, .idle, 3⟩,
         io := [.probeConnection], events := [.connectionRestored] }) ∧
    ((⟨false, .offline, 3⟩ : DriverState).isConnected = false ∧
     (⟨false, .offline, 3⟩ : DriverState).status = .offline ∧
     disconnectCbx ⟨false, .offline, 3⟩ =
       { outcome := .ok (), state := ⟨false, .offline, 3⟩,
         io := [.clearBuffer], events := [.connectionLost] }) :=
  ⟨⟨rfl, rfl, connect_disconnect_state_idempotent.1 ⟨true, .idle, 3⟩ rfl rfl⟩,
   ⟨rfl, rfl, connect_disconnect_state_idempotent.2 ⟨false, .offline, 3⟩ rfl rfl⟩⟩

/-- C7: discovery never rejects — for every probe environment it
resolves with the concatenation of the three paths, each path's result
depending only on its own probes; a failed USB or OS path merely
contributes nothing while the other paths still contribute; and when
every probe path fails or finds nothing, the result is the empty
list. -/
theorem discovery_never_raises :
    (∀ env : DiscoveryEnv, discoverPrinters env =
        .ok (catchProbe env.usbRaw ++ catchProbe env.osRaw ++
             discoverNetworkPrinters env.netProbe)) ∧
    (∀ (env : DiscoveryEnv) (e : String),
        discoverPrinters { env with usbRaw := .error e } =
          .ok (catchProbe env.osRaw ++ discoverNetworkPrinters env.netProbe)) ∧
    (∀ (env : DiscoveryEnv) (e : String),
        discoverPrinters { env with osRaw := .error e } =
          .ok (catchProbe env.usbRaw ++ discoverNetworkPrinters env.netProbe)) ∧
    (∀ e1 e2 : String,
        discoverPrinters
          { usbRaw := .error e1, osRaw := .error e2, netProbe := fun _ => false } =
          .ok []) := by
  refine ⟨fun env => rfl, fun env e => ?_, fun env e => ?_, fun e1 e2 => rfl⟩
  · simp [discoverPrinters, catchProbe]
  · simp [discoverPrinters, catchProbe]

/-- C9: `createCbxPos89eConfig(name, connectionString)` with no options
yields the CBX default template: type `cbx_pos_89e`, USB transport,
80mm paper, UTF-8 character set, 3000 ms timeout, 3 retries, not
default, carrying the given name and connection string (and a
timestamp-derived id). -/
theorem createCbxPos89eConfig_defaults (name connStr : String) (now : Nat) :
    createCbxPos89eConfig name connStr emptyCbxOptions now =
      { id := "cbx_" ++ toString now,
        name := name,
        ptype := "cbx_pos_89e",
        connectionType := "usb",
        connectionString := connStr,
        paperSize := "80mm",
        characterSet := some "UTF-8",
        timeout := some 3000,
        retryAttempts := some 3,
        isDefault := some false } := rfl

/-- C10: the registry's `validatePrinter` never raises — an unknown id
yields `false` (not Printer-Not-Found) and a `selfTest()` rejection is
absorbed to `false` — and the service's `testPrinter` on an initialized
service resolves with exactly that boolean. -/
theorem validatePrinter_testPrinter_total :
    (∀ (reg : Registry) (id : String) (outcome : Except String Bool),
        getPrinter reg id = none → validatePrinterReg reg id outcome = false) ∧
    (∀ (reg : Registry) (id msg : String),
        validatePrinterReg reg id (.error msg) = false) ∧
    (∀ (s : ServiceState) (id : String) (outcome : Except String Bool),
        s.initialized = true →
        testPrinter s id outcome = .ok (validatePrinterReg s.registry id outcome)) := by
  refine ⟨?_, ?_, ?_⟩
  · intro reg id outcome h
    simp [validatePrinterReg, h]
  · intro reg id msg
    unfold validatePrinterReg
    cases getPrinter reg id <;> rfl
  · intro s id outcome h
    simp [testPrinter, h]

/-- Witness for `validatePrinter_testPrinter_total`: an empty registry
with an unknown id, a rejecting self-test, and an initialized service. -/
theorem validatePrinter_testPrinter_total_witness :
    (getPrinter emptyRegistry "ghost" = none ∧
     validatePrinterReg emptyRegistry "ghost" (.ok true) = false) ∧
    validatePrinterReg emptyRegistry "ghost" (.error "boom") = false ∧
    ((⟨true, emptyRegistry⟩ : ServiceState).initialized = true ∧
     testPrinter ⟨true, emptyRegistry⟩ "ghost" (.ok true) =
       .ok (validatePrinterReg emptyRegistry "ghost" (.ok true))) :=
  ⟨⟨rfl, validatePrinter_testPrinter_total.1 emptyRegistry "ghost" (.ok true) rfl⟩,
   validatePrinter_testPrinter_total.2.1 emptyRegistry "ghost" "boom",
   ⟨rfl, validatePrinter_testPrinter_total.2.2 ⟨true, emptyRegistry⟩ "ghost" (.ok true) rfl⟩⟩

/-- Inserting a config whose id is not yet cached appends it. -/
theorem cacheInsert_not_mem (cache : List PrinterConfig) (c : PrinterConfig)
    (h : cache.any (fun x => x.id == c.id) = false) :
    cacheInsert cache c = cache ++ [c] := by
  simp [cacheInsert, h]

/-- Re-inserting a list of configs with pairwise-distinct ids into a
cache already disjoint from them reproduces the cache followed by the
list, in order. -/
theorem foldl_cacheInsert_eq :
    ∀ (l acc : List PrinterConfig),
      ((acc ++ l).map PrinterConfig.id).Nodup →
      l.foldl cacheInsert acc = acc ++ l := by
  intro l
  induction l with
  | nil =>
      intro acc _
      simp
  | cons c rest ih =>
      intro acc h
      have hdis : (acc.map PrinterConfig.id).Disjoint
          ((c :: rest).map PrinterConfig.id) :=
        (List.nodup_append.mp (by simpa using h)).2.2
      have hnotin : acc.any (fun x => x.id == c.id) = false := by
        rw [List.any_eq_false]
        intro x hxm
        have hxin : x.id ∈ acc.map PrinterConfig.id :=
          List.mem_map_of_mem _ hxm
        have hnot : x.id ∉ (c :: rest).map PrinterConfig.id := hdis hxin
        simp only [List.map_cons, List.mem_cons, not_or] at hnot
        simpa using hnot.1
      rw [List.foldl_cons, cacheInsert_not_mem acc c hnotin,
          ih (acc ++ [c]) (by simpa [List.append_assoc] using h)]
      simp

/-- C8 (amended): the export-then-import round trip restores the store
exactly — same configs, identifier-by-identifier and field-for-field,
same default id — for every store whose cached configs all validate,
whose ids are pairwise distinct, and whose `defaultConfigId` is a
non-empty id naming a stored config.  (When `defaultConfigId` is null
and the store is non-empty, import instead re-derives a default from
the first config and flips its `isDefault` flag; see the
counterexample.) -/
theorem config_export_import_roundtrip (s : ConfigStore) (d : String)
    (hval : s.configs.all cmValidateConfig = true)
    (hnd : (s.configs.map PrinterConfig.id).Nodup)
    (hd : s.defaultConfigId = some d)
    (hne : (d != "") = true)
    (hmem : s.configs.any (fun c => c.id == d) = true) :
    importConfigs s (exportConfigs s) = .ok s := by
  have hfold : s.configs.foldl cacheInsert [] = s.configs :=
    foldl_cacheInsert_eq s.configs [] (by simpa using hnd)
  simp only [importConfigs, exportConfigs, hval, Bool.not_true,
    Bool.false_eq_true, if_false, hfold, hd, hne, hmem, Bool.and_self,
    if_true, Bool.true_and]
  rw [← hd]

/-- Witness for `config_export_import_roundtrip` on a one-config store
whose default id names that config. -/
theorem config_export_import_roundtrip_witness :
    (storeWithDefault.configs.all cmValidateConfig = true ∧
     (storeWithDefault.configs.map PrinterConfig.id).Nodup ∧
     storeWithDefault.defaultConfigId = some "p1" ∧
     (("p1" : String) != "") = true ∧
     storeWithDefault.configs.any (fun c => c.id == "p1") = true) ∧
    importConfigs storeWithDefault (exportConfigs storeWithDefault) =
      .ok storeWithDefault :=
  ⟨⟨rfl, by decide, rfl, rfl, rfl⟩,
   config_export_import_roundtrip storeWithDefault "p1" rfl (by decide)
     rfl rfl rfl⟩

/-- C8 counterexample: a store holding one valid, non-default config
with `defaultConfigId` null (exactly what `saveConfig` of a non-default
config leaves in a fresh manager) is *not* restored by
`importConfigs(exportConfigs())`: import promotes the config to default,
changing both its `isDefault` field and the store's default id. -/
theorem config_import_changes_default :
    importConfigs storeNoDefault (exportConfigs storeNoDefault) =
      .ok { configs := [{ cfgP2 with isDefault := some true }],
            defaultConfigId := some "p2" } ∧
    ({ configs := [{ cfgP2 with isDefault := some true }],
       defaultConfigId := some "p2" } : ConfigStore) ≠ storeNoDefault := by
  constructor
  · rfl
  · decide
